import Mathlib

/-!
Shallow embedding of the matchup aggregation engine of `trainModel.py`
(TEAM mode of `main`, plus `filter_year_range_team`), and proofs of the
specification claims about it.

Conventions of the embedding:
* a pandas DataFrame of per-team-per-game rows is a `List TeamGameRecord`,
  one element per row, in frame order;
* boolean-mask filtering (`df[mask]`) is `List.filter`;
* Python `float` values (the over/under line, probabilities) are modelled
  as exact rationals `ℚ`;
* `groupby("GAME_ID")` is realised by `groupRows` (the rows of one group)
  together with `uniqueIds` (the distinct group keys in order of first
  appearance);
* exceptions/early returns of `main` become an `Except QueryError` result.
-/

namespace SportsBetting

/-- One row of the team-totals frame: one team's line in one game
(columns `GAME_ID`, `SEASON_YEAR`, `TEAM_ABBREVIATION`, `PTS`, `WL`,
`MATCHUP` of `trainModel.py`; `GAME_DATE` is never consulted by the
engine and is omitted). -/
structure TeamGameRecord where
  game_id : Nat
  season_year : Int
  team_abbreviation : String
  points : Nat
  wl : String
  matchup : String
deriving DecidableEq

/-- `filter_year_range_team` of `trainModel.py`:
`df[(df["SEASON_YEAR"] >= start_year) & (df["SEASON_YEAR"] <= end_year)].copy()`. -/
def filter_year_range_team (df : List TeamGameRecord) (start_year end_year : Int) :
    List TeamGameRecord :=
  df.filter (fun r => decide (start_year ≤ r.season_year) && decide (r.season_year ≤ end_year))

/-- `set(df_team[df_team["TEAM_ABBREVIATION"] == team]["GAME_ID"])`:
the game ids of the rows belonging to `team` (as a list; only membership
in it is ever used, matching the Python `set`). -/
def gameIds (df : List TeamGameRecord) (team : String) : List Nat :=
  (df.filter (fun r => r.team_abbreviation == team)).map (·.game_id)

/-- The rows of one `groupby("GAME_ID")` group: `df[df["GAME_ID"] == g]`. -/
def groupRows (df : List TeamGameRecord) (g : Nat) : List TeamGameRecord :=
  df.filter (fun r => r.game_id == g)

/-- The group predicate of line 133 of `trainModel.py`:
`set(x["TEAM_ABBREVIATION"]) == {teamA, teamB}`, i.e. every abbreviation
in the group is `teamA` or `teamB` and both occur. -/
def validGroup (teamA teamB : String) (grp : List TeamGameRecord) : Bool :=
  grp.all (fun r => r.team_abbreviation == teamA || r.team_abbreviation == teamB) &&
    grp.any (fun r => r.team_abbreviation == teamA) &&
    grp.any (fun r => r.team_abbreviation == teamB)

/-- `df_team[df_team["GAME_ID"].isin(common_game_ids)]` where
`common_game_ids = games_teamA.intersection(games_teamB)`. -/
def commonRows (df : List TeamGameRecord) (teamA teamB : String) : List TeamGameRecord :=
  df.filter (fun r => (gameIds df teamA).contains r.game_id &&
    (gameIds df teamB).contains r.game_id)

/-- `df_matchups.groupby("GAME_ID").filter(lambda x: set(x["TEAM_ABBREVIATION"]) == {teamA, teamB})`:
keeps exactly the rows whose game group passes `validGroup`. -/
def validRows (df : List TeamGameRecord) (teamA teamB : String) : List TeamGameRecord :=
  (commonRows df teamA teamB).filter
    (fun r => validGroup teamA teamB (groupRows (commonRows df teamA teamB) r.game_id))

/-- `needle` is a leading segment of `hay` (character lists). -/
def isPre : List Char → List Char → Bool
  | [], _ => true
  | _ :: _, [] => false
  | a :: as, b :: bs => a == b && isPre as bs

/-- `needle` occurs as a contiguous segment of `hay`
(the semantics of Python's `needle in hay` on strings). -/
def hasSub (needle : List Char) : List Char → Bool
  | [] => needle.isEmpty
  | c :: cs => isPre needle (c :: cs) || hasSub needle cs

/-- `"vs." in s` of `trainModel.py` line 164. -/
def containsVs (s : String) : Bool :=
  hasSub ("vs.".data) s.data

/-- `determine_winner_and_location` of `trainModel.py` (lines 154-172),
acting on one game's group of rows. `teamA_row` is
`team_rows[team_rows["TEAM_ABBREVIATION"] == teamA].iloc[0]`, the first
row of the group carrying `teamA`; the result is
`(winner, location, season_year)`. The `none` branch is unreachable on
the groups the engine feeds in (every accepted group contains a `teamA`
row); in Python `iloc[0]` would raise there. -/
def determine_winner_and_location (teamA teamB : String) (grp : List TeamGameRecord) :
    String × String × Int :=
  match grp.find? (fun r => r.team_abbreviation == teamA) with
  | some teamA_row =>
      (if teamA_row.wl == "W" then teamA else teamB,
       if containsVs teamA_row.matchup then "Home" else "Away",
       teamA_row.season_year)
  | none => ("", "", 0)

/-- One joined per-game record, a row of `grouped` after lines 140-174 of
`trainModel.py` (`game_total_points`, `Over/Under`, `Winner`, `Location`,
`Season_Year`). -/
structure MatchupRecord where
  game_id : Nat
  total_points : Nat
  season_year : Int
  ou : String
  winner : String
  location : String
deriving DecidableEq

/-- Build the `grouped` row of game `g` from the validated frame:
`PTS` summed over the group, `Over/Under` from the summed points against
the line (line 148), winner/location/season from
`determine_winner_and_location`. -/
def buildMatchup (teamA teamB : String) (ou_line : ℚ) (dfm : List TeamGameRecord)
    (g : Nat) : MatchupRecord :=
  let grp := groupRows dfm g
  let pts := (grp.map (·.points)).sum
  let wls := determine_winner_and_location teamA teamB grp
  { game_id := g
    total_points := pts
    season_year := wls.2.2
    ou := if (pts : ℚ) > ou_line then "Over" else "Under"
    winner := wls.1
    location := wls.2.1 }

/-- Distinct elements in order of first appearance, skipping those in `seen`. -/
def uniqueAux (seen : List Nat) : List Nat → List Nat
  | [] => []
  | g :: rest => if seen.contains g then uniqueAux seen rest
      else g :: uniqueAux (g :: seen) rest

/-- The distinct group keys of `groupby("GAME_ID")`, in order of first
appearance. -/
def uniqueIds (l : List Nat) : List Nat :=
  uniqueAux [] l

/-- The Matchup Resolver (lines 121-174 of `trainModel.py`): one
`MatchupRecord` per distinct `GAME_ID` of the validated frame. -/
def resolveMatchups (df : List TeamGameRecord) (teamA teamB : String) (ou_line : ℚ) :
    List MatchupRecord :=
  (uniqueIds ((validRows df teamA teamB).map (·.game_id))).map
    (buildMatchup teamA teamB ou_line (validRows df teamA teamB))

/-- The aggregate statistics of lines 149-185 of `trainModel.py`. -/
structure AggregateSummary where
  total_games : Nat
  over_count : Nat
  prob_over : ℚ
  teamA_wins : Nat
  teamB_wins : Nat
  home_wins_teamA : Nat
  away_wins_teamA : Nat
  home_wins_teamB : Nat
  away_wins_teamB : Nat
deriving DecidableEq

/-- The Outcome Aggregator: the counts and probability of lines 149-185,
computed over the matchup records
(`prob_over = over_count / total_count if total_count > 0 else 0.0`). -/
def aggregate (teamA teamB : String) (ms : List MatchupRecord) : AggregateSummary :=
  { total_games := ms.length
    over_count := ms.countP (fun m => m.ou == "Over")
    prob_over := if ms.length > 0 then
        ((ms.countP (fun m => m.ou == "Over") : ℚ) / (ms.length : ℚ)) else 0
    teamA_wins := ms.countP (fun m => m.winner == teamA)
    teamB_wins := ms.countP (fun m => m.winner == teamB)
    home_wins_teamA := ms.countP (fun m => m.winner == teamA && m.location == "Home")
    away_wins_teamA := ms.countP (fun m => m.winner == teamA && m.location == "Away")
    home_wins_teamB := ms.countP (fun m => m.winner == teamB && m.location == "Home")
    away_wins_teamB := ms.countP (fun m => m.winner == teamB && m.location == "Away") }

/-- The early-return conditions of TEAM mode in `main`: empty year range
(line 111), empty game-id intersection (line 125), no group surviving
validation (line 135). -/
inductive QueryError where
  | emptyRange
  | noMatchupsFound
  | noValidMatchups
deriving DecidableEq

/-- The TEAM-mode query of `main` (lines 106-185): filter by year range,
intersect the two teams' game ids, validate the groups, resolve the
matchups and aggregate; each guard mirrors an early `return`. -/
def runQuery (rows : List TeamGameRecord) (start_year end_year : Int)
    (teamA teamB : String) (ou_line : ℚ) : Except QueryError AggregateSummary :=
  if (filter_year_range_team rows start_year end_year).isEmpty then
    Except.error QueryError.emptyRange
  else if !((gameIds (filter_year_range_team rows start_year end_year) teamA).any
      (fun g => (gameIds (filter_year_range_team rows start_year end_year) teamB).contains g)) then
    Except.error QueryError.noMatchupsFound
  else if (validRows (filter_year_range_team rows start_year end_year) teamA teamB).isEmpty then
    Except.error QueryError.noValidMatchups
  else
    Except.ok (aggregate teamA teamB
      (resolveMatchups (filter_year_range_team rows start_year end_year) teamA teamB ou_line))

/-- The over/under recommendation (lines 206-220 of `trainModel.py`):
`(recommendation, confidence)` as a function of `prob_over`. -/
def ou_recommendation (prob_over : ℚ) : String × String :=
  if prob_over > 0.6 then ("Over", "strong")
  else if prob_over > 0.5 then ("Over", "moderate")
  else if prob_over < 0.4 then ("Under", "strong")
  else if prob_over < 0.5 then ("Under", "moderate")
  else ("Neutral", "no clear trend")

/-- The winning-team recommendation (lines 228-242 of `trainModel.py`)
as a function of the two win rates `teamA_wins/total_count` and
`teamB_wins/total_count`. -/
def win_recommendation (teamA teamB : String) (winRateA winRateB : ℚ) : String × String :=
  if winRateA > winRateB + 0.1 then (teamA, "high")
  else if winRateB > winRateA + 0.1 then (teamB, "high")
  else if winRateA > winRateB + 0.05 then (teamA, "moderate")
  else if winRateB > winRateA + 0.05 then (teamB, "moderate")
  else ("Neither team has a clear advantage", "low")

/-- Concrete data for witnesses: the two-game CLE/GSW scenario of the
spec (§8), one home win for CLE and one road win recorded for GSW. -/
def sampleRows : List TeamGameRecord :=
  [ ⟨1, 2020, "CLE", 110, "W", "CLE vs. GSW"⟩,
    ⟨1, 2020, "GSW", 105, "L", "GSW @ CLE"⟩,
    ⟨2, 2020, "CLE", 95, "L", "CLE @ GSW"⟩,
    ⟨2, 2020, "GSW", 100, "W", "GSW vs. CLE"⟩ ]

/-- Concrete data with a duplicated CLE row in game 1: the team-code set
of the group is still exactly the two queried codes, so the group filter
of line 133 accepts it. -/
def dupRows : List TeamGameRecord :=
  [ ⟨1, 2020, "CLE", 100, "W", "CLE vs. GSW"⟩,
    ⟨1, 2020, "CLE", 100, "W", "CLE vs. GSW"⟩,
    ⟨1, 2020, "GSW", 90, "L", "GSW @ CLE"⟩ ]

/-- Concrete data in which CLE and GSW never share a game id. -/
def disjointRows : List TeamGameRecord :=
  [ ⟨1, 2020, "CLE", 110, "W", "CLE vs. BOS"⟩,
    ⟨1, 2020, "BOS", 100, "L", "BOS @ CLE"⟩,
    ⟨2, 2020, "GSW", 99, "W", "GSW vs. LAL"⟩,
    ⟨2, 2020, "LAL", 90, "L", "LAL @ GSW"⟩ ]

/-! ### Basic membership lemmas -/

lemma mem_filter_year_range_team {df : List TeamGameRecord} {sy ey : Int} {r : TeamGameRecord} :
    r ∈ filter_year_range_team df sy ey ↔ r ∈ df ∧ sy ≤ r.season_year ∧ r.season_year ≤ ey := by
  simp [filter_year_range_team, List.mem_filter, and_assoc]

lemma mem_gameIds {df : List TeamGameRecord} {t : String} {g : Nat} :
    g ∈ gameIds df t ↔ ∃ r ∈ df, r.team_abbreviation = t ∧ r.game_id = g := by
  simp only [gameIds, List.mem_map, List.mem_filter, beq_iff_eq]
  constructor
  · rintro ⟨r, ⟨hr, ht⟩, hg⟩
    exact ⟨r, hr, ht, hg⟩
  · rintro ⟨r, hr, ht, hg⟩
    exact ⟨r, ⟨hr, ht⟩, hg⟩

lemma mem_groupRows {df : List TeamGameRecord} {g : Nat} {r : TeamGameRecord} :
    r ∈ groupRows df g ↔ r ∈ df ∧ r.game_id = g := by
  simp [groupRows, List.mem_filter]

lemma mem_commonRows {df : List TeamGameRecord} {tA tB : String} {r : TeamGameRecord} :
    r ∈ commonRows df tA tB ↔
      r ∈ df ∧ r.game_id ∈ gameIds df tA ∧ r.game_id ∈ gameIds df tB := by
  simp [commonRows, List.mem_filter, List.elem_iff, and_assoc]

lemma mem_validRows {df : List TeamGameRecord} {tA tB : String} {r : TeamGameRecord} :
    r ∈ validRows df tA tB ↔
      r ∈ commonRows df tA tB ∧
        validGroup tA tB (groupRows (commonRows df tA tB) r.game_id) = true := by
  simp [validRows, List.mem_filter]

lemma mem_uniqueAux {x : Nat} : ∀ (l seen : List Nat),
    x ∈ uniqueAux seen l ↔ x ∈ l ∧ x ∉ seen := by
  intro l
  induction l with
  | nil => intro seen; simp [uniqueAux]
  | cons g rest ih =>
      intro seen
      by_cases hg : seen.contains g
      · rw [uniqueAux, if_pos hg, ih]
        have hgs : g ∈ seen := List.elem_iff.mp hg
        constructor
        · rintro ⟨hx, hs⟩; exact ⟨List.mem_cons_of_mem _ hx, hs⟩
        · rintro ⟨hx, hs⟩
          rcases List.mem_cons.mp hx with rfl | hx
          · exact absurd hgs hs
          · exact ⟨hx, hs⟩
      · rw [uniqueAux, if_neg hg]
        have hgs : g ∉ seen := fun h => hg (List.elem_iff.mpr h)
        constructor
        · intro hx
          rcases List.mem_cons.mp hx with rfl | hx
          · exact ⟨List.mem_cons_self _ _, hgs⟩
          · rcases (ih (g :: seen)).mp hx with ⟨h1, h2⟩
            exact ⟨List.mem_cons_of_mem _ h1,
              fun hs => h2 (List.mem_cons_of_mem _ hs)⟩
        · rintro ⟨hx, hs⟩
          rcases List.mem_cons.mp hx with rfl | hx
          · exact List.mem_cons_self _ _
          · by_cases hxg : x = g
            · subst hxg; exact List.mem_cons_self _ _
            · exact List.mem_cons_of_mem _ ((ih (g :: seen)).mpr
                ⟨hx, fun h => by
                  rcases List.mem_cons.mp h with h | h
                  · exact hxg h
                  · exact hs h⟩)

lemma mem_uniqueIds {x : Nat} {l : List Nat} : x ∈ uniqueIds l ↔ x ∈ l := by
  simp [uniqueIds, mem_uniqueAux]

/-! ### Group lemmas -/

lemma groupRows_filter (df : List TeamGameRecord) (p : TeamGameRecord → Bool) (g : Nat) :
    groupRows (df.filter p) g = (groupRows df g).filter p := by
  simp only [groupRows, List.filter_filter]
  exact List.filter_congr (fun r _ => Bool.and_comm _ _)

lemma validGroup_iff {tA tB : String} {grp : List TeamGameRecord} :
    validGroup tA tB grp = true ↔
      (∀ r ∈ grp, r.team_abbreviation = tA ∨ r.team_abbreviation = tB) ∧
        (∃ r ∈ grp, r.team_abbreviation = tA) ∧ (∃ r ∈ grp, r.team_abbreviation = tB) := by
  simp [validGroup, List.all_eq_true, List.any_eq_true, and_assoc]

lemma validGroup_iff_teamSet {tA tB : String} {grp : List TeamGameRecord} :
    validGroup tA tB grp = true ↔
      {s : String | ∃ r ∈ grp, r.team_abbreviation = s} = {tA, tB} := by
  rw [validGroup_iff, Set.ext_iff]
  constructor
  · rintro ⟨hall, ⟨rA, hrA, hA⟩, ⟨rB, hrB, hB⟩⟩ s
    simp only [Set.mem_setOf_eq, Set.mem_insert_iff, Set.mem_singleton_iff]
    constructor
    · rintro ⟨r, hr, rfl⟩; exact hall r hr
    · rintro (rfl | rfl)
      · exact ⟨rA, hrA, hA⟩
      · exact ⟨rB, hrB, hB⟩
  · intro h
    refine ⟨fun r hr => ?_, ?_, ?_⟩
    · have := (h r.team_abbreviation).mp ⟨r, hr, rfl⟩
      simpa using this
    · have := (h tA).mpr (by simp)
      simpa using this
    · have := (h tB).mpr (by simp)
      simpa using this

lemma groupRows_commonRows {df : List TeamGameRecord} {tA tB : String} {g : Nat}
    (hA : g ∈ gameIds df tA) (hB : g ∈ gameIds df tB) :
    groupRows (commonRows df tA tB) g = groupRows df g := by
  rw [commonRows, groupRows_filter]
  apply List.filter_eq_self.mpr
  intro r hr
  have hg : r.game_id = g := (mem_groupRows.mp hr).2
  rw [hg]
  simp only [Bool.and_eq_true]
  exact ⟨List.elem_iff.mpr hA, List.elem_iff.mpr hB⟩

lemma groupRows_validRows {df : List TeamGameRecord} {tA tB : String} {g : Nat}
    (hg : ∃ r ∈ validRows df tA tB, r.game_id = g) :
    groupRows (validRows df tA tB) g = groupRows (commonRows df tA tB) g := by
  obtain ⟨r0, hr0, hid0⟩ := hg
  have hq : validGroup tA tB (groupRows (commonRows df tA tB) g) = true := by
    have := (mem_validRows.mp hr0).2
    rwa [hid0] at this
  rw [validRows, groupRows_filter]
  apply List.filter_eq_self.mpr
  intro r hr
  have hid : r.game_id = g := (mem_groupRows.mp hr).2
  rw [hid]
  exact hq

lemma buildMatchup_game_id (tA tB : String) (line : ℚ) (dfm : List TeamGameRecord) (g : Nat) :
    (buildMatchup tA tB line dfm g).game_id = g := rfl

lemma mem_resolveMatchups {df : List TeamGameRecord} {tA tB : String} {line : ℚ}
    {m : MatchupRecord} :
    m ∈ resolveMatchups df tA tB line ↔
      ∃ g, (∃ r ∈ validRows df tA tB, r.game_id = g) ∧
        m = buildMatchup tA tB line (validRows df tA tB) g := by
  simp only [resolveMatchups, List.mem_map, mem_uniqueIds]
  constructor
  · rintro ⟨g, hg, rfl⟩
    exact ⟨g, hg, rfl⟩
  · rintro ⟨g, hg, rfl⟩
    exact ⟨g, hg, rfl⟩

/-- Claim C1: a game enters the matchup set exactly when its `game_id` lies
in the intersection of the two teams' game-id sets and the set of distinct
team codes among that game's rows is exactly `{teamA, teamB}` (so a game
whose rows mention a third team code is excluded entirely). -/
theorem resolver_membership_characterization (df : List TeamGameRecord) (tA tB : String)
    (line : ℚ) (g : Nat) :
    (∃ m ∈ resolveMatchups df tA tB line, m.game_id = g) ↔
      (g ∈ gameIds df tA ∧ g ∈ gameIds df tB ∧
        {s : String | ∃ r ∈ groupRows df g, r.team_abbreviation = s} = {tA, tB}) := by
  constructor
  · rintro ⟨m, hm, hid⟩
    obtain ⟨g', hg', rfl⟩ := mem_resolveMatchups.mp hm
    rw [buildMatchup_game_id] at hid
    subst hid
    obtain ⟨r, hr, hrid⟩ := hg'
    obtain ⟨hrc, hvg⟩ := mem_validRows.mp hr
    obtain ⟨hrdf, hrA, hrB⟩ := mem_commonRows.mp hrc
    rw [hrid] at hrA hrB hvg
    rw [groupRows_commonRows hrA hrB] at hvg
    exact ⟨hrA, hrB, validGroup_iff_teamSet.mp hvg⟩
  · rintro ⟨hA, hB, hset⟩
    have hvg : validGroup tA tB (groupRows df g) = true := validGroup_iff_teamSet.mpr hset
    obtain ⟨r0, hr0df, hr0t, hr0id⟩ := mem_gameIds.mp hA
    have hr0c : r0 ∈ commonRows df tA tB := by
      rw [mem_commonRows, hr0id]
      exact ⟨hr0df, hA, hB⟩
    have hr0v : r0 ∈ validRows df tA tB := by
      rw [mem_validRows, hr0id]
      exact ⟨hr0c, by rw [groupRows_commonRows hA hB]; exact hvg⟩
    exact ⟨buildMatchup tA tB line (validRows df tA tB) g,
      mem_resolveMatchups.mpr ⟨g, ⟨r0, hr0v, hr0id⟩, rfl⟩, rfl⟩

/-- Witness for C1: on the sample data, game 1 is in the matchup set, so the
characterization yields its intersection membership and team-code set. -/
theorem resolver_membership_characterization_witness :
    1 ∈ gameIds sampleRows "CLE" ∧ 1 ∈ gameIds sampleRows "GSW" ∧
      {s : String | ∃ r ∈ groupRows sampleRows 1, r.team_abbreviation = s} = {"CLE", "GSW"} :=
  (resolver_membership_characterization sampleRows "CLE" "GSW" 200 1).mp (by decide)

/-! ### The accepted game's group and its teamA row -/

lemma validRows_group_valid {df : List TeamGameRecord} {tA tB : String} {g : Nat}
    (hg : ∃ r ∈ validRows df tA tB, r.game_id = g) :
    validGroup tA tB (groupRows (commonRows df tA tB) g) = true := by
  obtain ⟨r0, hr0, hid0⟩ := hg
  have := (mem_validRows.mp hr0).2
  rwa [hid0] at this

lemma find_teamA_row {df : List TeamGameRecord} {tA tB : String} {g : Nat}
    (hg : ∃ r ∈ validRows df tA tB, r.game_id = g) :
    ∃ rA, (groupRows (validRows df tA tB) g).find? (fun r => r.team_abbreviation == tA)
        = some rA ∧ rA.team_abbreviation = tA := by
  have hvg := validRows_group_valid hg
  rw [groupRows_validRows hg]
  obtain ⟨-, ⟨r, hr, hrt⟩, -⟩ := validGroup_iff.mp hvg
  have hsome : ((groupRows (commonRows df tA tB) g).find?
      (fun r => r.team_abbreviation == tA)).isSome :=
    List.find?_isSome.mpr ⟨r, hr, by simp [hrt]⟩
  obtain ⟨rA, hrA⟩ := Option.isSome_iff_exists.mp hsome
  exact ⟨rA, hrA, by simpa using List.find?_some hrA⟩

lemma determine_eq {tA tB : String} {grp : List TeamGameRecord} {rA : TeamGameRecord}
    (hfind : grp.find? (fun r => r.team_abbreviation == tA) = some rA) :
    determine_winner_and_location tA tB grp =
      (if rA.wl == "W" then tA else tB,
       if containsVs rA.matchup then "Home" else "Away",
       rA.season_year) := by
  simp only [determine_winner_and_location, hfind]

lemma buildMatchup_winner (tA tB : String) (line : ℚ) (dfm : List TeamGameRecord) (g : Nat) :
    (buildMatchup tA tB line dfm g).winner =
      (determine_winner_and_location tA tB (groupRows dfm g)).1 := rfl

lemma buildMatchup_location (tA tB : String) (line : ℚ) (dfm : List TeamGameRecord) (g : Nat) :
    (buildMatchup tA tB line dfm g).location =
      (determine_winner_and_location tA tB (groupRows dfm g)).2.1 := rfl

lemma buildMatchup_total_points (tA tB : String) (line : ℚ) (dfm : List TeamGameRecord)
    (g : Nat) :
    (buildMatchup tA tB line dfm g).total_points =
      ((groupRows dfm g).map (·.points)).sum := rfl

lemma buildMatchup_ou (tA tB : String) (line : ℚ) (dfm : List TeamGameRecord) (g : Nat) :
    (buildMatchup tA tB line dfm g).ou =
      (if ((((groupRows dfm g).map (·.points)).sum : ℕ) : ℚ) > line
        then "Over" else "Under") := rfl

lemma resolve_winner_location {df : List TeamGameRecord} {tA tB : String} {line : ℚ}
    {m : MatchupRecord} (h : m ∈ resolveMatchups df tA tB line) :
    ∃ rA, (groupRows (validRows df tA tB) m.game_id).find?
        (fun r => r.team_abbreviation == tA) = some rA ∧
      m.winner = (if rA.wl == "W" then tA else tB) ∧
      m.location = (if containsVs rA.matchup then "Home" else "Away") := by
  obtain ⟨g, hg, rfl⟩ := mem_resolveMatchups.mp h
  obtain ⟨rA, hfind, hrt⟩ := find_teamA_row hg
  refine ⟨rA, ?_, ?_, ?_⟩
  · rw [buildMatchup_game_id]; exact hfind
  · rw [buildMatchup_winner, determine_eq hfind]
  · rw [buildMatchup_location, determine_eq hfind]

lemma resolve_winner_or {df : List TeamGameRecord} {tA tB : String} {line : ℚ}
    {m : MatchupRecord} (h : m ∈ resolveMatchups df tA tB line) :
    m.winner = tA ∨ m.winner = tB := by
  obtain ⟨rA, -, hw, -⟩ := resolve_winner_location h
  rw [hw]
  by_cases hwl : (rA.wl == "W") = true
  · rw [if_pos hwl]; exact Or.inl rfl
  · rw [if_neg hwl]; exact Or.inr rfl

lemma resolve_location_or {df : List TeamGameRecord} {tA tB : String} {line : ℚ}
    {m : MatchupRecord} (h : m ∈ resolveMatchups df tA tB line) :
    m.location = "Home" ∨ m.location = "Away" := by
  obtain ⟨rA, -, -, hl⟩ := resolve_winner_location h
  rw [hl]
  by_cases hm : containsVs rA.matchup = true
  · rw [if_pos hm]; exact Or.inl rfl
  · rw [if_neg hm]; exact Or.inr rfl

/-- Claim C10: for every accepted game, winner and location come solely from
teamA's row (the first row of the game's group carrying teamA's code):
the winner is teamA exactly when that row's `WL` is `"W"` and is teamB
otherwise, regardless of teamB's row; the location is Home exactly when that
row's `MATCHUP` contains the substring `"vs."` and is Away otherwise — so
winner is always one of the two queried codes and location is always Home
or Away. -/
theorem winner_location_from_teamA_row (df : List TeamGameRecord) (tA tB : String)
    (line : ℚ) (m : MatchupRecord) (h : m ∈ resolveMatchups df tA tB line) :
    ∃ rA, (groupRows (validRows df tA tB) m.game_id).find?
        (fun r => r.team_abbreviation == tA) = some rA ∧
      m.winner = (if rA.wl = "W" then tA else tB) ∧
      m.location = (if containsVs rA.matchup = true then "Home" else "Away") ∧
      (tA ≠ tB → (m.winner = tA ↔ rA.wl = "W")) ∧
      (m.winner = tA ∨ m.winner = tB) ∧
      (m.location = "Home" ∨ m.location = "Away") := by
  obtain ⟨rA, hfind, hw, hl⟩ := resolve_winner_location h
  refine ⟨rA, hfind, ?_, ?_, ?_, resolve_winner_or h, resolve_location_or h⟩
  · rw [hw]
    by_cases hwl : rA.wl = "W"
    · rw [if_pos hwl, if_pos (by simp [hwl])]
    · rw [if_neg hwl, if_neg (by simp [hwl])]
  · rw [hl]
  · intro hne
    rw [hw]
    by_cases hwl : rA.wl = "W"
    · rw [if_pos (by simp [hwl])]
      exact ⟨fun _ => hwl, fun _ => rfl⟩
    · rw [if_neg (by simp [hwl])]
      exact ⟨fun htB => absurd htB.symm hne, fun hW => absurd hW hwl⟩

/-- Witness for C10: in the sample data game 1, the matchup's winner is one
of the two queried codes. -/
theorem winner_location_from_teamA_row_witness :
    (⟨1, 215, 2020, "Over", "CLE", "Home"⟩ : MatchupRecord).winner = "CLE" ∨
      (⟨1, 215, 2020, "Over", "CLE", "Home"⟩ : MatchupRecord).winner = "GSW" := by
  obtain ⟨rA, -, -, -, -, hw, -⟩ :=
    winner_location_from_teamA_row sampleRows "CLE" "GSW" 200
      ⟨1, 215, 2020, "Over", "CLE", "Home"⟩ (by decide)
  exact hw

/-- Claim C4: an accepted game classifies Over exactly when its total points
strictly exceed the supplied line; a game whose total equals the line
classifies Under. -/
theorem over_under_strict_threshold (df : List TeamGameRecord) (tA tB : String)
    (line : ℚ) (m : MatchupRecord) (h : m ∈ resolveMatchups df tA tB line) :
    (m.ou = "Over" ↔ line < (m.total_points : ℚ)) ∧
      ((m.total_points : ℚ) = line → m.ou = "Under") := by
  obtain ⟨g, hg, rfl⟩ := mem_resolveMatchups.mp h
  rw [buildMatchup_ou, buildMatchup_total_points]
  by_cases hlt : line < ((((groupRows (validRows df tA tB) g).map (·.points)).sum : ℕ) : ℚ)
  · rw [if_pos hlt]
    exact ⟨⟨fun _ => hlt, fun _ => rfl⟩, fun he => absurd (he ▸ hlt) (lt_irrefl line)⟩
  · rw [if_neg hlt]
    exact ⟨⟨fun hov => absurd hov (by decide), fun hc => absurd hc hlt⟩, fun _ => rfl⟩

/-- Witness for C4: game 1 of the sample data (215 total points, line 200)
classifies Over exactly because 200 < 215; and its record would be Under
were the total equal to the line. -/
theorem over_under_strict_threshold_witness :
    ((⟨1, 215, 2020, "Over", "CLE", "Home"⟩ : MatchupRecord).ou = "Over" ↔
        (200 : ℚ) < ((⟨1, 215, 2020, "Over", "CLE", "Home"⟩ : MatchupRecord).total_points : ℚ)) ∧
      (((⟨1, 215, 2020, "Over", "CLE", "Home"⟩ : MatchupRecord).total_points : ℚ) = 200 →
        (⟨1, 215, 2020, "Over", "CLE", "Home"⟩ : MatchupRecord).ou = "Under") :=
  over_under_strict_threshold sampleRows "CLE" "GSW" 200
    ⟨1, 215, 2020, "Over", "CLE", "Home"⟩ (by decide)

/-! ### Counting lemmas -/

lemma countP_two_partition {α : Type} (l : List α) (p q : α → Bool)
    (hcov : ∀ x ∈ l, p x = true ∨ q x = true)
    (hdis : ∀ x ∈ l, ¬(p x = true ∧ q x = true)) :
    l.countP p + l.countP q = l.length := by
  induction l with
  | nil => simp
  | cons a t ih =>
      have ha := hcov a (List.mem_cons_self a t)
      have hd := hdis a (List.mem_cons_self a t)
      have iht := ih (fun x hx => hcov x (List.mem_cons_of_mem a hx))
        (fun x hx => hdis x (List.mem_cons_of_mem a hx))
      simp only [List.countP_cons, List.length_cons]
      rcases ha with hp | hq
      · have hqf : q a = false := Bool.eq_false_iff.mpr (fun hh => hd ⟨hp, hh⟩)
        simp [hp, hqf]
        omega
      · have hpf : p a = false := Bool.eq_false_iff.mpr (fun hh => hd ⟨hh, hq⟩)
        simp [hq, hpf]
        omega

lemma countP_and_partition {α : Type} (l : List α) (c p q : α → Bool)
    (hcov : ∀ x ∈ l, c x = true → p x = true ∨ q x = true)
    (hdis : ∀ x ∈ l, ¬(p x = true ∧ q x = true)) :
    l.countP (fun x => c x && p x) + l.countP (fun x => c x && q x) = l.countP c := by
  induction l with
  | nil => simp
  | cons a t ih =>
      have iht := ih (fun x hx => hcov x (List.mem_cons_of_mem a hx))
        (fun x hx => hdis x (List.mem_cons_of_mem a hx))
      simp only [List.countP_cons]
      by_cases hc : c a = true
      · rcases hcov a (List.mem_cons_self a t) hc with hp | hq
        · have hqf : q a = false :=
            Bool.eq_false_iff.mpr (fun hh => hdis a (List.mem_cons_self a t) ⟨hp, hh⟩)
          simp [hc, hp, hqf]
          omega
        · have hpf : p a = false :=
            Bool.eq_false_iff.mpr (fun hh => hdis a (List.mem_cons_self a t) ⟨hh, hq⟩)
          simp [hc, hq, hpf]
          omega
      · have hc' : c a = false := Bool.eq_false_iff.mpr hc
        simp [hc']
        omega

lemma runQuery_ok {rows : List TeamGameRecord} {sy ey : Int} {tA tB : String} {line : ℚ}
    {s : AggregateSummary} (h : runQuery rows sy ey tA tB line = Except.ok s) :
    s = aggregate tA tB (resolveMatchups (filter_year_range_team rows sy ey) tA tB line) ∧
      validRows (filter_year_range_team rows sy ey) tA tB ≠ [] := by
  unfold runQuery at h
  split at h
  · exact absurd h (by simp)
  · split at h
    · exact absurd h (by simp)
    · split at h
      · exact absurd h (by simp)
      · rename_i hval
        exact ⟨(Except.ok.inj h).symm, fun hnil => hval (by rw [hnil]; rfl)⟩

/-- Claim C3: in every aggregate summary a completed query produces (for two
distinct team codes), teamA's and teamB's wins sum to the total game count,
and each team's home and away wins sum to its wins. -/
theorem aggregate_win_invariants (rows : List TeamGameRecord) (sy ey : Int)
    (tA tB : String) (line : ℚ) (s : AggregateSummary) (hne : tA ≠ tB)
    (h : runQuery rows sy ey tA tB line = Except.ok s) :
    s.teamA_wins + s.teamB_wins = s.total_games ∧
      s.home_wins_teamA + s.away_wins_teamA = s.teamA_wins ∧
      s.home_wins_teamB + s.away_wins_teamB = s.teamB_wins := by
  obtain ⟨hs, -⟩ := runQuery_ok h
  subst hs
  simp only [aggregate]
  have hwor : ∀ m ∈ resolveMatchups (filter_year_range_team rows sy ey) tA tB line,
      (m.winner == tA) = true ∨ (m.winner == tB) = true := by
    intro m hm
    rcases resolve_winner_or hm with hw | hw
    · exact Or.inl (by simp [hw])
    · exact Or.inr (by simp [hw])
  have hwdis : ∀ m ∈ resolveMatchups (filter_year_range_team rows sy ey) tA tB line,
      ¬((m.winner == tA) = true ∧ (m.winner == tB) = true) := by
    rintro m hm ⟨h1, h2⟩
    exact hne ((beq_iff_eq.mp h1).symm.trans (beq_iff_eq.mp h2))
  have hlor : ∀ t : String,
      ∀ m ∈ resolveMatchups (filter_year_range_team rows sy ey) tA tB line,
      (m.winner == t) = true →
        (m.location == "Home") = true ∨ (m.location == "Away") = true := by
    intro t m hm _
    rcases resolve_location_or hm with hl | hl
    · exact Or.inl (by simp [hl])
    · exact Or.inr (by simp [hl])
  have hldis : ∀ m ∈ resolveMatchups (filter_year_range_team rows sy ey) tA tB line,
      ¬((m.location == "Home") = true ∧ (m.location == "Away") = true) := by
    rintro m hm ⟨h1, h2⟩
    have : ("Home" : String) = "Away" :=
      (beq_iff_eq.mp h1).symm.trans (beq_iff_eq.mp h2)
    exact absurd this (by decide)
  refine ⟨?_, ?_, ?_⟩
  · exact countP_two_partition _ _ _ hwor hwdis
  · exact countP_and_partition _ _ _ _ (hlor tA) hldis
  · exact countP_and_partition _ _ _ _ (hlor tB) hldis

/-- Witness for C3: the invariants evaluated on the completed sample query. -/
theorem aggregate_win_invariants_witness :
    (aggregate "CLE" "GSW"
        (resolveMatchups (filter_year_range_team sampleRows 2000 2030) "CLE" "GSW" 200)).teamA_wins +
      (aggregate "CLE" "GSW"
        (resolveMatchups (filter_year_range_team sampleRows 2000 2030) "CLE" "GSW" 200)).teamB_wins =
      (aggregate "CLE" "GSW"
        (resolveMatchups (filter_year_range_team sampleRows 2000 2030) "CLE" "GSW" 200)).total_games :=
  (aggregate_win_invariants sampleRows 2000 2030 "CLE" "GSW" 200
    (aggregate "CLE" "GSW"
      (resolveMatchups (filter_year_range_team sampleRows 2000 2030) "CLE" "GSW" 200))
    (by decide) rfl).1

lemma resolveMatchups_length_pos {df : List TeamGameRecord} {tA tB : String} {line : ℚ}
    (h : validRows df tA tB ≠ []) : 0 < (resolveMatchups df tA tB line).length := by
  rw [resolveMatchups, List.length_map]
  obtain ⟨r, hr⟩ := List.exists_mem_of_ne_nil _ h
  have hm : r.game_id ∈ uniqueIds ((validRows df tA tB).map (·.game_id)) := by
    rw [mem_uniqueIds]
    exact List.mem_map.mpr ⟨r, hr, rfl⟩
  exact List.length_pos.mpr (List.ne_nil_of_mem hm)

/-- Claim C7: probability computations are division-safe: `prob_over` is
`over_count / total_games` when `total_games > 0` and is defined as `0` when
`total_games = 0`; it always lies in `[0, 1]`; and every summary a query
actually completes with has `total_games > 0`, so the unguarded per-team
win-rate divisions of the report never divide by zero. -/
theorem prob_over_division_safe (tA tB : String) (ms : List MatchupRecord)
    (rows : List TeamGameRecord) (sy ey : Int) (line : ℚ) (s : AggregateSummary) :
    (0 ≤ (aggregate tA tB ms).prob_over ∧ (aggregate tA tB ms).prob_over ≤ 1) ∧
      ((aggregate tA tB ms).total_games = 0 → (aggregate tA tB ms).prob_over = 0) ∧
      (0 < (aggregate tA tB ms).total_games →
        (aggregate tA tB ms).prob_over =
          ((aggregate tA tB ms).over_count : ℚ) / ((aggregate tA tB ms).total_games : ℚ)) ∧
      (runQuery rows sy ey tA tB line = Except.ok s → 0 < s.total_games) := by
  have hcle : ms.countP (fun m => m.ou == "Over") ≤ ms.length := List.countP_le_length _
  simp only [aggregate]
  refine ⟨?_, ?_, ?_, ?_⟩
  · by_cases hlen : ms.length > 0
    · rw [if_pos hlen]
      have hpos : (0 : ℚ) < (ms.length : ℚ) := by exact_mod_cast hlen
      constructor
      · exact div_nonneg (Nat.cast_nonneg _) (le_of_lt hpos)
      · rw [div_le_one hpos]
        exact_mod_cast hcle
    · rw [if_neg hlen]
      exact ⟨le_refl 0, zero_le_one⟩
  · intro h0
    rw [if_neg (by omega)]
  · intro hpos
    rw [if_pos hpos]
  · intro h
    obtain ⟨hs, hne⟩ := runQuery_ok h
    subst hs
    exact resolveMatchups_length_pos hne

/-- Witness for C7: the completed sample query has a positive game count. -/
theorem prob_over_division_safe_witness :
    0 < (aggregate "CLE" "GSW"
      (resolveMatchups (filter_year_range_team sampleRows 2000 2030) "CLE" "GSW" 200)).total_games :=
  (prob_over_division_safe "CLE" "GSW" [] sampleRows 2000 2030 200
    (aggregate "CLE" "GSW"
      (resolveMatchups (filter_year_range_team sampleRows 2000 2030) "CLE" "GSW" 200))).2.2.2 rfl

/-- Claim C8: when the two teams' game-id sets (over the year-filtered,
non-empty record collection) do not intersect, the query terminates with the
distinct `noMatchupsFound` condition and produces no summary at all. -/
theorem empty_intersection_no_matchups (rows : List TeamGameRecord) (sy ey : Int)
    (tA tB : String) (line : ℚ)
    (hdf : filter_year_range_team rows sy ey ≠ [])
    (hint : ∀ g ∈ gameIds (filter_year_range_team rows sy ey) tA,
      g ∉ gameIds (filter_year_range_team rows sy ey) tB) :
    runQuery rows sy ey tA tB line = Except.error QueryError.noMatchupsFound := by
  have h1 : ¬ ((filter_year_range_team rows sy ey).isEmpty = true) :=
    fun hh => hdf (List.isEmpty_iff.mp hh)
  have h2 : (!((gameIds (filter_year_range_team rows sy ey) tA).any
      (fun g => (gameIds (filter_year_range_team rows sy ey) tB).contains g))) = true := by
    rw [Bool.not_eq_true']
    apply List.any_eq_false.mpr
    intro g hgA
    simp only [Bool.not_eq_true]
    exact Bool.eq_false_iff.mpr (fun hc => hint g hgA (List.elem_iff.mp hc))
  unfold runQuery
  rw [if_neg h1, if_pos h2]

/-- Witness for C8: CLE and GSW share no game id in `disjointRows`, and the
query reports `noMatchupsFound`. -/
theorem empty_intersection_no_matchups_witness :
    runQuery disjointRows 2000 2030 "CLE" "GSW" 200 =
      Except.error QueryError.noMatchupsFound :=
  empty_intersection_no_matchups disjointRows 2000 2030 "CLE" "GSW" 200
    (by decide) (by decide)

/-- Claim C9: the Range Filter returns exactly the records whose
`season_year` lies in the inclusive interval `[start_year, end_year]`
(a pure function of its input), and yields the empty collection — not an
error — on empty input or an empty range (`start_year > end_year`). -/
theorem range_filter_spec (df : List TeamGameRecord) (sy ey : Int) :
    (∀ r, r ∈ filter_year_range_team df sy ey ↔
        r ∈ df ∧ sy ≤ r.season_year ∧ r.season_year ≤ ey) ∧
      (df = [] → filter_year_range_team df sy ey = []) ∧
      (ey < sy → filter_year_range_team df sy ey = []) := by
  refine ⟨fun r => mem_filter_year_range_team, ?_, ?_⟩
  · rintro rfl; rfl
  · intro hlt
    rw [filter_year_range_team]
    apply List.filter_eq_nil_iff.mpr
    intro r hr
    simp only [Bool.and_eq_true, decide_eq_true_eq, not_and]
    intro h1 h2
    omega

/-- Witness for C9: the empty-range case on the sample data. -/
theorem range_filter_spec_witness :
    filter_year_range_team sampleRows 2030 2000 = [] :=
  (range_filter_spec sampleRows 2030 2000).2.2 (by decide)

/-- Claim C5: the over/under recommendation is a total function of
`prob_over` matching the threshold table: above 0.6 strong Over, in
(0.5, 0.6] moderate Over (so exactly 0.6 is moderate, not strong), below
0.4 strong Under, in [0.4, 0.5) moderate Under, and exactly 0.5 neutral. -/
theorem ou_recommendation_thresholds (p : ℚ) :
    (0.6 < p → ou_recommendation p = ("Over", "strong")) ∧
      (0.5 < p ∧ p ≤ 0.6 → ou_recommendation p = ("Over", "moderate")) ∧
      (p < 0.4 → ou_recommendation p = ("Under", "strong")) ∧
      (0.4 ≤ p ∧ p < 0.5 → ou_recommendation p = ("Under", "moderate")) ∧
      (p = 0.5 → ou_recommendation p = ("Neutral", "no clear trend")) := by
  refine ⟨fun h => ?_, fun ⟨h1, h2⟩ => ?_, fun h => ?_, fun ⟨h1, h2⟩ => ?_,
      fun h => ?_⟩ <;>
    · unfold ou_recommendation
      split_ifs <;> first | rfl | (exfalso; linarith)

/-- Witness for C5: the spec's boundary scenarios, 0.65 strong Over and
exactly 0.6 moderate Over. -/
theorem ou_recommendation_thresholds_witness :
    ou_recommendation 0.65 = ("Over", "strong") ∧
      ou_recommendation 0.6 = ("Over", "moderate") :=
  ⟨(ou_recommendation_thresholds 0.65).1 (by norm_num),
    (ou_recommendation_thresholds 0.6).2.1 ⟨by norm_num, le_refl _⟩⟩

/-- Claim C6: the win-side recommendation matches the threshold table on the
win-rate difference `d = winRateA - winRateB`: above 0.10 teamA/high, below
-0.10 teamB/high, in (0.05, 0.10] teamA/moderate, in [-0.10, -0.05)
teamB/moderate, and otherwise no clear advantage with low confidence. -/
theorem win_recommendation_thresholds (tA tB : String) (wA wB : ℚ) :
    (0.1 < wA - wB → win_recommendation tA tB wA wB = (tA, "high")) ∧
      (wA - wB < -(0.1 : ℚ) → win_recommendation tA tB wA wB = (tB, "high")) ∧
      (0.05 < wA - wB ∧ wA - wB ≤ 0.1 →
        win_recommendation tA tB wA wB = (tA, "moderate")) ∧
      (-(0.1 : ℚ) ≤ wA - wB ∧ wA - wB < -(0.05 : ℚ) →
        win_recommendation tA tB wA wB = (tB, "moderate")) ∧
      (-(0.05 : ℚ) ≤ wA - wB ∧ wA - wB ≤ 0.05 →
        win_recommendation tA tB wA wB =
          ("Neither team has a clear advantage", "low")) := by
  refine ⟨fun h => ?_, fun h => ?_, fun ⟨h1, h2⟩ => ?_, fun ⟨h1, h2⟩ => ?_,
      fun ⟨h1, h2⟩ => ?_⟩ <;>
    · unfold win_recommendation
      split_ifs <;> first | rfl | (exfalso; linarith)

/-- Witness for C6: a 60%/40% split (difference 0.2) recommends teamA with
high confidence, and a boundary difference of exactly 0.1 is moderate. -/
theorem win_recommendation_thresholds_witness :
    win_recommendation "CLE" "GSW" 0.6 0.4 = ("CLE", "high") ∧
      win_recommendation "CLE" "GSW" 0.55 0.45 = ("CLE", "moderate") :=
  ⟨(win_recommendation_thresholds "CLE" "GSW" 0.6 0.4).1 (by norm_num),
    (win_recommendation_thresholds "CLE" "GSW" 0.55 0.45).2.2.1 ⟨by norm_num, by norm_num⟩⟩

/-- Claim C2 is false of the code (a code bug): the group filter of line 133
tests only the set of team codes, so a game group with duplicate rows — here
two identical CLE rows and one GSW row — passes validation and contributes a
`MatchupRecord` whose `total_points` sums three rows (100 + 100 + 90 = 290),
contradicting the code's own comment "Ensure that each GAME_ID has exactly
two entries". -/
theorem duplicate_rows_accepted :
    (groupRows dupRows 1).length = 3 ∧
      validGroup "CLE" "GSW" (groupRows dupRows 1) = true ∧
      resolveMatchups dupRows "CLE" "GSW" 200 =
        [{ game_id := 1, total_points := 290, season_year := 2020,
           ou := "Over", winner := "CLE", location := "Home" }] := by
  decide

end SportsBetting
